import Mathlib

/-!
Verification of the aircraft-ID cache coordinator (`src/ac_cache.c`).

The coordinator keeps two keyed stores: a forward store mapping
(channel frequency, aircraft id) to the aircraft's ICAO address, and an
inverse store mapping (channel frequency, ICAO address) back to the
aircraft id.  The generic TTL cache engine (`cache.c` / `cache.h`) is not
part of the sources; it is modelled here from the spec's external-interface
contract (§6): a store is a list of (key, entry, creation-timestamp)
records, newest first, with lookup/delete matching via the store's
key-equality function and expiry removing entries older than the TTL.

C `int32_t` channel frequencies are modelled as `Int`, `uint8_t` aircraft
ids and `uint32_t` ICAO addresses as `Nat`, `time_t` timestamps as `Nat`.
-/

/-- Modelled from the spec: a store instance of the external TTL cache
engine (`struct cache` from `cache.h`, absent from the sources).  The store
holds (key, entry, creation-timestamp) records, most recently inserted
first. -/
structure Store (K V : Type) where
  entries : List (K × V × Nat)
deriving DecidableEq

/-- Modelled from the spec: `entry_create(store, key, entry, timestamp)` of
the external engine — the store takes both and records the timestamp. -/
def cache_entry_create {K V : Type} (st : Store K V) (key : K) (v : V)
    (created_time : Nat) : Store K V :=
  ⟨(key, v, created_time) :: st.entries⟩

/-- Modelled from the spec: `entry_lookup(store, key)` of the external
engine — returns the first entry whose stored key the store's key-equality
function deems equal to the probe, or not-found. -/
def cache_entry_lookup {K V : Type} (cmp : K → K → Bool) (st : Store K V)
    (key : K) : Option V :=
  (st.entries.find? (fun e => cmp key e.1)).map (fun e => e.2.1)

/-- Removal of the first record matching the probe per the key-equality
function, on the record list underlying a store. -/
def cache_delete_list {K V : Type} (cmp : K → K → Bool) (key : K) :
    List (K × V × Nat) → Bool × List (K × V × Nat)
  | [] => (false, [])
  | e :: rest =>
    if cmp key e.1 then (true, rest)
    else
      let r := cache_delete_list cmp key rest
      (r.1, e :: r.2)

/-- Modelled from the spec: `entry_delete(store, key)` of the external
engine — removes the first entry matching per the store's key-equality
function; true iff an entry was present and removed. -/
def cache_entry_delete {K V : Type} (cmp : K → K → Bool) (st : Store K V)
    (key : K) : Bool × Store K V :=
  let r := cache_delete_list cmp key st.entries
  (r.1, ⟨r.2⟩)

/-- Modelled from the spec: the engine's TTL expiration sweep — at sweep
time `now`, every entry created at `t` with `now ≥ t + ttl` is removed. -/
def cache_expire {K V : Type} (st : Store K V) (now ttl : Nat) : Store K V :=
  ⟨st.entries.filter (fun e => decide (now < e.2.2 + ttl))⟩

/-- `struct ac_cache_fwd_key`: channel frequency (`int32_t`) and aircraft
id (`uint8_t`). -/
structure ac_cache_fwd_key where
  freq : Int
  id : Nat
deriving DecidableEq

/-- `struct ac_cache_inv_key`: channel frequency (`int32_t`) and ICAO
address (`uint32_t`). -/
structure ac_cache_inv_key where
  freq : Int
  icao_address : Nat
deriving DecidableEq

/-- `struct ac_cache_entry` (from `ac_cache.h`; only the field the claims
concern): the ICAO address stored in the forward store. -/
structure ac_cache_entry where
  icao_address : Nat
deriving DecidableEq

/-- `struct ac_cache_inv_entry`: the aircraft id stored in the inverse
store. -/
structure ac_cache_inv_entry where
  id : Nat
deriving DecidableEq

/-- `struct ac_cache`: the coordinator owning the two stores. -/
structure ac_cache where
  fwd_cache : Store ac_cache_fwd_key ac_cache_entry
  inv_cache : Store ac_cache_inv_key ac_cache_inv_entry
deriving DecidableEq

/-- `AC_CACHE_TTL` (line 42). -/
def AC_CACHE_TTL : Nat := 14400

/-- `ac_cache_fwd_key_hash` (lines 145-149): `k->freq + k->id`, the signed
`int` sum converted to `uint32_t`, i.e. taken modulo 2^32. -/
def ac_cache_fwd_key_hash (k : ac_cache_fwd_key) : Nat :=
  ((k.freq + (k.id : Int)) % (2 : Int) ^ 32).toNat

/-- `ac_cache_fwd_key_compare` (lines 151-157): field-by-field equality of
the two keys. -/
def ac_cache_fwd_key_compare (key1 key2 : ac_cache_fwd_key) : Bool :=
  key1.freq == key2.freq && key1.id == key2.id

/-- `ac_cache_inv_key_hash` (lines 169-172): `k->freq + k->icao_address`,
computed in `uint32_t`, i.e. modulo 2^32. -/
def ac_cache_inv_key_hash (k : ac_cache_inv_key) : Nat :=
  ((k.freq + (k.icao_address : Int)) % (2 : Int) ^ 32).toNat

/-- `ac_cache_inv_key_compare` (lines 174-180).  Faithful to the source:
line 178 initializes `k2` from `key1`, not `key2`, so both comparison
operands are read from the first key. -/
def ac_cache_inv_key_compare (key1 key2 : ac_cache_inv_key) : Bool :=
  let k1 := key1
  let k2 := key1
  k1.freq == k2.freq && k1.icao_address == k2.icao_address

/-- Field-by-field two-argument inverse-key equality as the spec's §9
defect note says the function is intended to behave (for comparison with
`ac_cache_inv_key_compare`). -/
def ac_cache_inv_key_compare_spec (key1 key2 : ac_cache_inv_key) : Bool :=
  key1.freq == key2.freq && key1.icao_address == key2.icao_address

/-- `ac_cache_create` (lines 60-65): a coordinator with two empty stores. -/
def ac_cache_create : ac_cache :=
  ⟨⟨[]⟩, ⟨[]⟩⟩

/-- `ac_cache_fwd_entry_create` (lines 182-191): insert the forward entry
carrying the ICAO address under key (freq, id) with the given timestamp. -/
def ac_cache_fwd_entry_create (cache : ac_cache) (freq : Int)
    (id icao_address : Nat) (created_time : Nat) : ac_cache :=
  { cache with
    fwd_cache := cache_entry_create cache.fwd_cache ⟨freq, id⟩
      ⟨icao_address⟩ created_time }

/-- `ac_cache_inv_entry_create` (lines 193-203): insert the inverse entry
carrying the aircraft id under key (freq, icao_address) with the given
timestamp. -/
def ac_cache_inv_entry_create (cache : ac_cache) (freq : Int)
    (id icao_address : Nat) (created_time : Nat) : ac_cache :=
  { cache with
    inv_cache := cache_entry_create cache.inv_cache ⟨freq, icao_address⟩
      ⟨id⟩ created_time }

/-- `ac_cache_entry_create` (lines 67-77): sample the time once (`now`,
passed here as a parameter standing for the single `time(NULL)` call) and
insert one entry into each store with that same timestamp. -/
def ac_cache_entry_create (cache : ac_cache) (freq : Int)
    (id icao_address : Nat) (now : Nat) : ac_cache :=
  ac_cache_inv_entry_create
    (ac_cache_fwd_entry_create cache freq id icao_address now)
    freq id icao_address now

/-- `ac_cache_entry_delete` (lines 79-99): look up the inverse store by
(freq, icao_address); if absent return false unchanged; otherwise recover
the aircraft id and attempt both deletions independently (`result |=`
evaluates the forward deletion regardless of the inverse one), returning
true iff at least one removed an entry. -/
def ac_cache_entry_delete (cache : ac_cache) (freq : Int)
    (icao_address : Nat) : Bool × ac_cache :=
  let inv_key : ac_cache_inv_key := ⟨freq, icao_address⟩
  match cache_entry_lookup ac_cache_inv_key_compare cache.inv_cache inv_key with
  | none => (false, cache)
  | some e =>
    let fwd_key : ac_cache_fwd_key := ⟨freq, e.id⟩
    let d1 := cache_entry_delete ac_cache_inv_key_compare cache.inv_cache inv_key
    let d2 := cache_entry_delete ac_cache_fwd_key_compare cache.fwd_cache fwd_key
    (d1.1 || d2.1, ⟨d2.2, d1.2⟩)

/-- `ac_cache_entry_lookup` (lines 101-112): query only the forward store
by (freq, id). -/
def ac_cache_entry_lookup (cache : ac_cache) (freq : Int) (id : Nat) :
    Option ac_cache_entry :=
  cache_entry_lookup ac_cache_fwd_key_compare cache.fwd_cache ⟨freq, id⟩

/-- The expiration sweep applied to both stores of the coordinator with the
configured TTL (each store sweeps independently in the engine; applying the
sweep to both models one full pass). -/
def ac_cache_expire (cache : ac_cache) (now : Nat) : ac_cache :=
  ⟨cache_expire cache.fwd_cache now AC_CACHE_TTL,
   cache_expire cache.inv_cache now AC_CACHE_TTL⟩

/-- Observable actions of `ac_cache_destroy`, for reasoning about the
NULL-handle control flow. -/
inductive DestroyAction where
  | destroyed_fwd_store
  | destroyed_inv_store
  | freed_coordinator
deriving DecidableEq

/-- `ac_cache_destroy` (lines 114-120): the NULL check guards everything;
with a non-NULL handle both stores are destroyed and the coordinator is
freed. -/
def ac_cache_destroy (cache : Option ac_cache) : List DestroyAction :=
  match cache with
  | none => []
  | some _ =>
    [DestroyAction.destroyed_fwd_store, DestroyAction.destroyed_inv_store,
     DestroyAction.freed_coordinator]

/-- `ac_cache_entry_create` seen at the pointer level: `ASSERT(cache !=
NULL)` (line 69) aborts on a NULL handle, modelled as `none`. -/
def ac_cache_entry_create_checked (cache : Option ac_cache) (freq : Int)
    (id icao_address now : Nat) : Option ac_cache :=
  match cache with
  | none => none
  | some c => some (ac_cache_entry_create c freq id icao_address now)

/-- `ac_cache_entry_lookup` seen at the pointer level: `ASSERT(cache !=
NULL)` (line 102) aborts on a NULL handle. -/
def ac_cache_entry_lookup_checked (cache : Option ac_cache) (freq : Int)
    (id : Nat) : Option (Option ac_cache_entry) :=
  match cache with
  | none => none
  | some c => some (ac_cache_entry_lookup c freq id)

/-- `ac_cache_entry_delete` seen at the pointer level: `ASSERT(cache !=
NULL)` (line 81) aborts on a NULL handle. -/
def ac_cache_entry_delete_checked (cache : Option ac_cache) (freq : Int)
    (icao_address : Nat) : Option (Bool × ac_cache) :=
  match cache with
  | none => none
  | some c => some (ac_cache_entry_delete c freq icao_address)

/-- C4: the inverse-key equality function is claimed to compare the two
distinct keys field by field; in the source (line 178) both operands are
read from `key1`, so the function returns true even for keys differing in
every field — here (freq 0, icao 0) against (freq 1, icao 1), where
field-by-field equality is false. -/
theorem ac_cache_inv_key_compare_ignores_second_key :
    ac_cache_inv_key_compare ⟨0, 0⟩ ⟨1, 1⟩ = true ∧
    ac_cache_inv_key_compare_spec ⟨0, 0⟩ ⟨1, 1⟩ = false := by
  decide

/-- C8: one call to `ac_cache_entry_create` prepends exactly one entry to
each store, and both new entries carry the single sampled timestamp
`now`. -/
theorem ac_cache_entry_create_inserts_once_each_with_shared_timestamp
    (cache : ac_cache) (freq : Int) (id icao_address now : Nat) :
    (ac_cache_entry_create cache freq id icao_address now).fwd_cache.entries
      = (⟨freq, id⟩, ⟨icao_address⟩, now) :: cache.fwd_cache.entries ∧
    (ac_cache_entry_create cache freq id icao_address now).inv_cache.entries
      = (⟨freq, icao_address⟩, ⟨id⟩, now) :: cache.inv_cache.entries := by
  exact ⟨rfl, rfl⟩

/-- C10: `ac_cache_destroy` on a NULL handle performs no action at all;
on any non-NULL handle it destroys both stores and frees the coordinator;
and the other three public operations assert a non-NULL handle (modelled
as aborting with `none`). -/
theorem ac_cache_destroy_null_is_noop :
    ac_cache_destroy none = [] ∧
    (∀ c : ac_cache, ac_cache_destroy (some c) =
      [DestroyAction.destroyed_fwd_store, DestroyAction.destroyed_inv_store,
       DestroyAction.freed_coordinator]) ∧
    (∀ (freq : Int) (id icao_address now : Nat),
      ac_cache_entry_create_checked none freq id icao_address now = none) ∧
    (∀ (freq : Int) (id : Nat),
      ac_cache_entry_lookup_checked none freq id = none) ∧
    (∀ (freq : Int) (icao_address : Nat),
      ac_cache_entry_delete_checked none freq icao_address = none) :=
  ⟨rfl, fun _ => rfl, fun _ _ _ _ => rfl, fun _ _ => rfl, fun _ _ => rfl⟩

/-- C3: after creating the binding (freq, id, icao_address) in an empty
coordinator, deleting by (freq, icao_address) returns true, and a
subsequent lookup of (freq, id) returns not-found. -/
theorem ac_cache_delete_after_create_then_lookup_misses
    (freq : Int) (id icao_address t : Nat) :
    (ac_cache_entry_delete
      (ac_cache_entry_create ac_cache_create freq id icao_address t)
      freq icao_address).1 = true ∧
    ac_cache_entry_lookup
      (ac_cache_entry_delete
        (ac_cache_entry_create ac_cache_create freq id icao_address t)
        freq icao_address).2 freq id = none := by
  simp [ac_cache_entry_create, ac_cache_fwd_entry_create,
    ac_cache_inv_entry_create, ac_cache_create, ac_cache_entry_delete,
    ac_cache_entry_lookup, cache_entry_create, cache_entry_lookup,
    cache_entry_delete, cache_delete_list, List.find?,
    ac_cache_inv_key_compare, ac_cache_fwd_key_compare]

/-- C6: after creating the two bindings (freq 1, id 5, icao 0) and
(freq 0, id 7, icao 1) — whose inverse keys share the additive hash value
1 and so always share a bucket — deleting (freq 1, icao 0) twice returns
true both times: the defective inverse-key compare makes the first delete
remove the other binding's inverse entry, so the second delete still finds
one.  The claim says the second call returns false. -/
theorem ac_cache_double_delete_second_call_returns_true :
    (ac_cache_entry_delete
      (ac_cache_entry_create
        (ac_cache_entry_create ac_cache_create 1 5 0 0) 0 7 1 0)
      1 0).1 = true ∧
    (ac_cache_entry_delete
      (ac_cache_entry_delete
        (ac_cache_entry_create
          (ac_cache_entry_create ac_cache_create 1 5 0 0) 0 7 1 0)
        1 0).2 1 0).1 = true := by
  decide

/-- C7: with only the binding (freq 1, id 5, icao 0) ever created, deleting
the never-created pair (freq 0, icao 1) — whose inverse key shares the
additive hash value 1 with the stored one, hence always the same bucket —
returns true and empties the inverse store.  The claim says such a delete
returns false and mutates nothing. -/
theorem ac_cache_delete_unknown_returns_true_and_mutates :
    (ac_cache_entry_delete
      (ac_cache_entry_create ac_cache_create 1 5 0 0) 0 1).1 = true ∧
    (ac_cache_entry_delete
      (ac_cache_entry_create ac_cache_create 1 5 0 0) 0 1).2.inv_cache.entries
      = [] := by
  decide

/-- C1: after `ac_cache_entry_create` of (freq, id, icao_address) at time
`t` on any prior state, a forward lookup of (freq, id) returns the entry
holding `icao_address`, both immediately and after an expiration sweep at
any time `now` before TTL expiry, with no intervening deletion. -/
theorem ac_cache_roundtrip_lookup
    (cache : ac_cache) (freq : Int) (id icao_address t now : Nat)
    (h : now < t + AC_CACHE_TTL) :
    ac_cache_entry_lookup
      (ac_cache_entry_create cache freq id icao_address t) freq id
      = some ⟨icao_address⟩ ∧
    ac_cache_entry_lookup
      (ac_cache_expire (ac_cache_entry_create cache freq id icao_address t) now)
      freq id = some ⟨icao_address⟩ := by
  constructor
  · simp [ac_cache_entry_create, ac_cache_fwd_entry_create,
      ac_cache_inv_entry_create, ac_cache_entry_lookup, cache_entry_create,
      cache_entry_lookup, List.find?, ac_cache_fwd_key_compare]
  · simp [ac_cache_entry_create, ac_cache_fwd_entry_create,
      ac_cache_inv_entry_create, ac_cache_entry_lookup, ac_cache_expire,
      cache_expire, cache_entry_create, cache_entry_lookup, List.filter,
      List.find?, ac_cache_fwd_key_compare, h]

theorem ac_cache_roundtrip_lookup_witness :
    (5 : Nat) < 0 + AC_CACHE_TTL ∧
    (ac_cache_entry_lookup
      (ac_cache_entry_create ac_cache_create 131525 7 11259375 0) 131525 7
      = some ⟨11259375⟩ ∧
    ac_cache_entry_lookup
      (ac_cache_expire
        (ac_cache_entry_create ac_cache_create 131525 7 11259375 0) 5)
      131525 7 = some ⟨11259375⟩) :=
  ⟨by decide,
   ac_cache_roundtrip_lookup ac_cache_create 131525 7 11259375 0 5 (by decide)⟩

/-- C2: `ac_cache_entry_delete` first looks up the inverse store by
(freq, icao_address); on a miss it returns false with the state unchanged;
on a hit it recovers the id and attempts the inverse-store and
forward-store deletions independently, returning the disjunction of their
results and the two resulting stores. -/
theorem ac_cache_entry_delete_contract (cache : ac_cache) (freq : Int)
    (icao_address : Nat) :
    (cache_entry_lookup ac_cache_inv_key_compare cache.inv_cache
        ⟨freq, icao_address⟩ = none →
      ac_cache_entry_delete cache freq icao_address = (false, cache)) ∧
    (∀ e, cache_entry_lookup ac_cache_inv_key_compare cache.inv_cache
        ⟨freq, icao_address⟩ = some e →
      ac_cache_entry_delete cache freq icao_address =
        ((cache_entry_delete ac_cache_inv_key_compare cache.inv_cache
            ⟨freq, icao_address⟩).1 ||
         (cache_entry_delete ac_cache_fwd_key_compare cache.fwd_cache
            ⟨freq, e.id⟩).1,
         ⟨(cache_entry_delete ac_cache_fwd_key_compare cache.fwd_cache
            ⟨freq, e.id⟩).2,
          (cache_entry_delete ac_cache_inv_key_compare cache.inv_cache
            ⟨freq, icao_address⟩).2⟩)) := by
  constructor
  · intro h
    simp [ac_cache_entry_delete, h]
  · intro e h
    simp [ac_cache_entry_delete, h]

theorem ac_cache_entry_delete_contract_witness :
    (ac_cache_entry_delete ac_cache_create 0 9 = (false, ac_cache_create)) ∧
    (ac_cache_entry_delete (ac_cache_entry_create ac_cache_create 0 5 9 0) 0 9
      = ((cache_entry_delete ac_cache_inv_key_compare
            (ac_cache_entry_create ac_cache_create 0 5 9 0).inv_cache
            ⟨0, 9⟩).1 ||
         (cache_entry_delete ac_cache_fwd_key_compare
            (ac_cache_entry_create ac_cache_create 0 5 9 0).fwd_cache
            ⟨0, (ac_cache_inv_entry.mk 5).id⟩).1,
         ⟨(cache_entry_delete ac_cache_fwd_key_compare
            (ac_cache_entry_create ac_cache_create 0 5 9 0).fwd_cache
            ⟨0, (ac_cache_inv_entry.mk 5).id⟩).2,
          (cache_entry_delete ac_cache_inv_key_compare
            (ac_cache_entry_create ac_cache_create 0 5 9 0).inv_cache
            ⟨0, 9⟩).2⟩)) :=
  ⟨(ac_cache_entry_delete_contract ac_cache_create 0 9).1 rfl,
   (ac_cache_entry_delete_contract
     (ac_cache_entry_create ac_cache_create 0 5 9 0) 0 9).2 ⟨5⟩ rfl⟩

/-- C5: with c1 ≠ c2 and the same id `s`, the bindings (c1, s, l1) and
(c2, s, l2) coexist and are independently retrievable; deleting
(c1, l1) returns true and removes only the first binding: the lookup of
(c1, s) then misses while (c2, s) still yields l2, and deleting (c2, l2)
afterwards still returns true. -/
theorem ac_cache_channel_isolation (c1 c2 : Int) (s l1 l2 t1 t2 : Nat)
    (hne : c1 ≠ c2) (st : ac_cache)
    (hst : st = ac_cache_entry_create
      (ac_cache_entry_create ac_cache_create c1 s l1 t1) c2 s l2 t2) :
    ac_cache_entry_lookup st c1 s = some ⟨l1⟩ ∧
    ac_cache_entry_lookup st c2 s = some ⟨l2⟩ ∧
    (ac_cache_entry_delete st c1 l1).1 = true ∧
    ac_cache_entry_lookup (ac_cache_entry_delete st c1 l1).2 c1 s = none ∧
    ac_cache_entry_lookup (ac_cache_entry_delete st c1 l1).2 c2 s
      = some ⟨l2⟩ ∧
    (ac_cache_entry_delete (ac_cache_entry_delete st c1 l1).2 c2 l2).1
      = true := by
  subst hst
  have h12 : (c1 == c2) = false := beq_eq_false_iff_ne.mpr hne
  have h21 : (c2 == c1) = false := beq_eq_false_iff_ne.mpr (Ne.symm hne)
  simp [ac_cache_entry_create, ac_cache_fwd_entry_create,
    ac_cache_inv_entry_create, ac_cache_create, ac_cache_entry_delete,
    ac_cache_entry_lookup, cache_entry_create, cache_entry_lookup,
    cache_entry_delete, cache_delete_list, List.find?,
    ac_cache_inv_key_compare, ac_cache_fwd_key_compare, h12, h21]

theorem ac_cache_channel_isolation_witness :
    ((0 : Int) ≠ 1 ∧
      ac_cache_entry_create
        (ac_cache_entry_create ac_cache_create 0 5 7 0) 1 5 9 0
        = ac_cache_entry_create
          (ac_cache_entry_create ac_cache_create 0 5 7 0) 1 5 9 0) ∧
    (ac_cache_entry_lookup
        (ac_cache_entry_create
          (ac_cache_entry_create ac_cache_create 0 5 7 0) 1 5 9 0) 0 5
        = some ⟨7⟩ ∧
      ac_cache_entry_lookup
        (ac_cache_entry_create
          (ac_cache_entry_create ac_cache_create 0 5 7 0) 1 5 9 0) 1 5
        = some ⟨9⟩ ∧
      (ac_cache_entry_delete
        (ac_cache_entry_create
          (ac_cache_entry_create ac_cache_create 0 5 7 0) 1 5 9 0) 0 7).1
        = true ∧
      ac_cache_entry_lookup
        (ac_cache_entry_delete
          (ac_cache_entry_create
            (ac_cache_entry_create ac_cache_create 0 5 7 0) 1 5 9 0) 0 7).2
        0 5 = none ∧
      ac_cache_entry_lookup
        (ac_cache_entry_delete
          (ac_cache_entry_create
            (ac_cache_entry_create ac_cache_create 0 5 7 0) 1 5 9 0) 0 7).2
        1 5 = some ⟨9⟩ ∧
      (ac_cache_entry_delete
        (ac_cache_entry_delete
          (ac_cache_entry_create
            (ac_cache_entry_create ac_cache_create 0 5 7 0) 1 5 9 0) 0 7).2
        1 9).1 = true) :=
  ⟨⟨by decide, rfl⟩,
   ac_cache_channel_isolation 0 1 5 7 9 0 0 (by decide) _ rfl⟩

/-- C9: both key hashes are the plain 32-bit addition of the channel
frequency and the identifier, so moving one unit from the identifier to
the frequency leaves the hash unchanged: for in-range c, x and y the
distinct forward keys (c+1, x) and (c, x+1) collide, and so do the
distinct inverse keys (c+1, y) and (c, y+1). -/
theorem ac_cache_additive_hash_collision (c : Int) (x y : Nat)
    (hc1 : -(2 : Int) ^ 31 ≤ c) (hc2 : c + 1 < (2 : Int) ^ 31)
    (hx : x + 1 < 2 ^ 8) (hy : y + 1 < 2 ^ 32) :
    ac_cache_fwd_key_hash ⟨c + 1, x⟩ = ac_cache_fwd_key_hash ⟨c, x + 1⟩ ∧
    (⟨c + 1, x⟩ : ac_cache_fwd_key) ≠ ⟨c, x + 1⟩ ∧
    ac_cache_inv_key_hash ⟨c + 1, y⟩ = ac_cache_inv_key_hash ⟨c, y + 1⟩ ∧
    (⟨c + 1, y⟩ : ac_cache_inv_key) ≠ ⟨c, y + 1⟩ := by
  have hsum : ∀ (n : Nat), c + 1 + (n : Int) = c + ((n + 1 : Nat) : Int) := by
    intro n
    push_cast
    ring
  refine ⟨?_, ?_, ?_, ?_⟩
  · show ((c + 1 + (x : Int)) % (2 : Int) ^ 32).toNat
      = ((c + ((x + 1 : Nat) : Int)) % (2 : Int) ^ 32).toNat
    rw [hsum]
  · intro hk
    have := congrArg ac_cache_fwd_key.freq hk
    simp only at this
    omega
  · show ((c + 1 + (y : Int)) % (2 : Int) ^ 32).toNat
      = ((c + ((y + 1 : Nat) : Int)) % (2 : Int) ^ 32).toNat
    rw [hsum]
  · intro hk
    have := congrArg ac_cache_inv_key.freq hk
    simp only at this
    omega

theorem ac_cache_additive_hash_collision_witness :
    (-(2 : Int) ^ 31 ≤ 100 ∧ (100 : Int) + 1 < (2 : Int) ^ 31 ∧
      (3 : Nat) + 1 < 2 ^ 8 ∧ (7 : Nat) + 1 < 2 ^ 32) ∧
    (ac_cache_fwd_key_hash ⟨100 + 1, 3⟩ = ac_cache_fwd_key_hash ⟨100, 3 + 1⟩ ∧
      (⟨100 + 1, 3⟩ : ac_cache_fwd_key) ≠ ⟨100, 3 + 1⟩ ∧
      ac_cache_inv_key_hash ⟨100 + 1, 7⟩ = ac_cache_inv_key_hash ⟨100, 7 + 1⟩ ∧
      (⟨100 + 1, 7⟩ : ac_cache_inv_key) ≠ ⟨100, 7 + 1⟩) :=
  ⟨⟨by decide, by decide, by decide, by decide⟩,
   ac_cache_additive_hash_collision 100 3 7 (by decide) (by decide)
     (by decide) (by decide)⟩
